import Mathlib

/-!
# Verification of the lighthouse-mcp-server report pipeline

Shallow embedding of `src/index.ts` of adamsilverstein/lighthouse-mcp-server:
the PageSpeed response data model, the two formatting helpers
(`formatPerformanceMetrics`, `formatOpportunities`), the score rendering and
report assembly of the `get-lighthouse-report` tool handler, and the
failure-collapsing behaviour of `makePageSpeedRequest`.

JavaScript semantics that matter here and how they are embedded:
* optional fields of the loosely typed JSON are `Option` (absent = `none`);
  numeric JSON fields that the code distinguishes between `undefined`, `null`
  and a number are the three-constructor type `JSNum`;
* `x || d` on strings is falsy for both `undefined` and `""` (`jsStrOr`);
* a template literal stringifies `undefined` as the text `"undefined"`;
* `null * 100` coerces `null` to `0`;
* `Math.round x` is `floor (x + 1/2)` (ties toward positive infinity);
* a JS object is embedded as an insertion-ordered association list; an empty
  object is truthy, so `!data.lighthouseResult?.audits` distinguishes an
  absent `audits` object from a present-but-empty one;
* `Object.values` is the list of values in insertion order.

The `loadingExperience` part of the response interface is never read by any
code path and is omitted from the embedding.
-/

namespace Lighthouse

/-- A numeric JSON field as the handler sees it: absent (`undefined`),
    explicitly `null`, or an actual number (embedded as a rational). -/
inductive JSNum where
  | undef
  | null
  | num (q : ℚ)
deriving DecidableEq, Repr

/-- The `details` object of an audit; the code only ever reads `details?.type`. -/
structure AuditDetails where
  type : Option String := none
deriving DecidableEq, Repr

/-- One audit record of `lighthouseResult.audits` (interface lines 35–43). -/
structure Audit where
  id : Option String := none
  title : Option String := none
  description : Option String := none
  score : JSNum := JSNum.undef
  displayValue : Option String := none
  numericValue : JSNum := JSNum.undef
  details : Option AuditDetails := none
deriving DecidableEq, Repr

/-- A category record: `{ score?: number }`. -/
structure CategoryScore where
  score : JSNum := JSNum.undef
deriving DecidableEq, Repr

/-- The `categories` object with its five optional members. -/
structure Categories where
  performance : Option CategoryScore := none
  accessibility : Option CategoryScore := none
  bestPractices : Option CategoryScore := none
  seo : Option CategoryScore := none
  pwa : Option CategoryScore := none
deriving DecidableEq, Repr

/-- `lighthouseResult`: optional categories, optional audits object.
    The audits object is an insertion-ordered association list. -/
structure LighthouseResult where
  categories : Option Categories := none
  audits : Option (List (String × Audit)) := none
deriving DecidableEq, Repr

/-- The top-level `error` object: `{ code?: number, message?: string }`. -/
structure ErrorInfo where
  code : JSNum := JSNum.undef
  message : Option String := none
deriving DecidableEq, Repr

/-- The `PageSpeedResponse` shape (interface lines 15–63), minus the unread
    `loadingExperience` part. -/
structure PageSpeedResponse where
  lighthouseResult : Option LighthouseResult := none
  error : Option ErrorInfo := none
deriving DecidableEq, Repr

/-- The five values of the `category` tool parameter. -/
inductive Category where
  | performance
  | accessibility
  | bestPractices
  | seo
  | pwa
deriving DecidableEq, Repr

/-- The query-parameter spelling of a category. -/
def Category.name : Category → String
  | Category.performance => "performance"
  | Category.accessibility => "accessibility"
  | Category.bestPractices => "best-practices"
  | Category.seo => "seo"
  | Category.pwa => "pwa"

/-- The two values of the `strategy` tool parameter. -/
inductive Strategy where
  | mobile
  | desktop
deriving DecidableEq, Repr

/-- The query-parameter spelling of a strategy. -/
def Strategy.name : Strategy → String
  | Strategy.mobile => "mobile"
  | Strategy.desktop => "desktop"

/-- The validated arguments of one `get-lighthouse-report` invocation. -/
structure AnalysisRequest where
  url : String
  category : Category := Category.performance
  strategy : Strategy := Strategy.mobile
  timeout : ℕ := 60000
deriving DecidableEq, Repr

/-- JS `s || d` for an optional string `s`: both an absent string and the
    empty string are falsy, so either falls back to `d`. -/
def jsStrOr (s : Option String) (d : String) : String :=
  match s with
  | some t => if t = "" then d else t
  | none => d

/-- JS template-literal stringification of an optional string: a present
    string renders as itself, `undefined` renders as the text `"undefined"`. -/
def jsTemplate (s : Option String) : String :=
  match s with
  | some t => t
  | none => "undefined"

/-- First-match association-list lookup, the embedding of `audits[key]`
    (JS object keys are unique, so first match is the match). -/
def lookupAudit (audits : List (String × Audit)) (key : String) : Option Audit :=
  (audits.find? (fun p => p.1 == key)).map Prod.snd

/-- The fixed ordered whitelist of metric audit identifiers
    (`const metrics = [...]`, lines 109–116). -/
def metricsWhitelist : List String :=
  ["first-contentful-paint", "largest-contentful-paint", "total-blocking-time",
   "cumulative-layout-shift", "speed-index", "interactive"]

/-- One metrics line: `` `${audit.title || metric}: ${audit.displayValue || "N/A"}` ``. -/
def metricLine (metric : String) (audit : Audit) : String :=
  jsStrOr audit.title metric ++ ": " ++ jsStrOr audit.displayValue "N/A"

/-- `formatPerformanceMetrics` (lines 103–125). `!data.lighthouseResult?.audits`
    guards only the absent case; a present audits object, even empty, flows
    into the filter/map/join pipeline. -/
def formatPerformanceMetrics (data : PageSpeedResponse) : String :=
  match data.lighthouseResult.bind LighthouseResult.audits with
  | none => "No performance metrics available"
  | some audits =>
      String.intercalate "\n"
        (metricsWhitelist.filterMap
          (fun metric => (lookupAudit audits metric).map (metricLine metric)))

/-- The opportunity filter predicate (line 135):
    `audit.details?.type === "opportunity" && audit.score !== null &&
     audit.score !== undefined && audit.score < 1`. -/
def isOpportunity (audit : Audit) : Bool :=
  (audit.details.bind AuditDetails.type == some "opportunity") &&
    (match audit.score with
     | JSNum.num q => decide (q < 1)
     | JSNum.null => false
     | JSNum.undef => false)

/-- One opportunities line (lines 143–146):
    `` const savings = opp.displayValue ? ` (${opp.displayValue})` : ""; ``
    `` return `${opp.title}${savings}`; `` — note the unguarded `opp.title`. -/
def oppLine (opp : Audit) : String :=
  jsTemplate opp.title ++
    (match opp.displayValue with
     | some dv => if dv = "" then "" else " (" ++ dv ++ ")"
     | none => "")

/-- `formatOpportunities` (lines 128–148). -/
def formatOpportunities (data : PageSpeedResponse) : String :=
  match data.lighthouseResult.bind LighthouseResult.audits with
  | none => "No opportunities available"
  | some audits =>
      let opportunities := (audits.map Prod.snd).filter isOpportunity
      if opportunities = [] then "No improvement opportunities found"
      else String.intercalate "\n" (opportunities.map oppLine)

/-- JS `Math.round`: nearest integer, ties toward positive infinity, i.e.
    `floor (x + 1/2)`. -/
def mathRound (q : ℚ) : ℤ :=
  ⌊q + 1/2⌋

/-- Rounding as the spec words it: round half away from zero
    (stated for comparison with the code's `Math.round`; the two agree on
    nonnegative inputs). -/
def roundHalfAwayFromZero (q : ℚ) : ℤ :=
  if 0 ≤ q then ⌊q + 1/2⌋ else -⌊-q + 1/2⌋

/-- `data.lighthouseResult?.categories?.[category]?.score`: the optional
    chain collapses any absent level to `undefined`; a present record yields
    its `score` field, which may itself be `undefined`, `null` or a number. -/
def getCategoryScore (data : PageSpeedResponse) (c : Category) : JSNum :=
  match data.lighthouseResult.bind LighthouseResult.categories with
  | none => JSNum.undef
  | some cats =>
      match (match c with
             | Category.performance => cats.performance
             | Category.accessibility => cats.accessibility
             | Category.bestPractices => cats.bestPractices
             | Category.seo => cats.seo
             | Category.pwa => cats.pwa) with
      | none => JSNum.undef
      | some cs => cs.score

/-- `score !== undefined ? Math.round(score * 100) : "N/A"` (line 197).
    A `null` score passes the `!== undefined` test and JS multiplication
    coerces `null` to `0`. -/
def formattedScore (s : JSNum) : String :=
  match s with
  | JSNum.undef => "N/A"
  | JSNum.null => toString (mathRound ((0 : ℚ) * 100))
  | JSNum.num q => toString (mathRound (q * 100))

/-- The score line of the report: `` `Score: ${formattedScore}/100` `` (line 203). -/
def scoreLine (data : PageSpeedResponse) (c : Category) : String :=
  "Score: " ++ formattedScore (getCategoryScore data c) ++ "/100"

/-- The success-path report text (lines 200–210): the nine items joined
    with `"\n"`. -/
def successReport (req : AnalysisRequest) (data : PageSpeedResponse) : String :=
  String.intercalate "\n"
    [ "Lighthouse " ++ req.category.name ++ " report for: " ++ req.url,
      "Strategy: " ++ req.strategy.name,
      scoreLine data req.category,
      "",
      "--- Key Metrics ---",
      formatPerformanceMetrics data,
      "",
      "--- Opportunities for Improvement ---",
      formatOpportunities data ]

/-- The tool handler after dispatch (lines 173–219): a missing dispatch
    result yields the failure line; a present top-level error object (even an
    empty one) yields the single error line with
    `data.error.message || "Unknown error"`; otherwise the full report. -/
def handlerText (req : AnalysisRequest) (dispatched : Option PageSpeedResponse) : String :=
  match dispatched with
  | none => "Failed to retrieve Lighthouse data for " ++ req.url
  | some data =>
      match data.error with
      | some e => "Error: " ++ jsStrOr e.message "Unknown error"
      | none => successReport req data

/-- The possible outcomes of the `fetch` call inside `makePageSpeedRequest`:
    the abort deadline fired, the network call rejected, or an HTTP response
    arrived with a status and a body that either parses as a
    `PageSpeedResponse` or is malformed JSON (`none`). -/
inductive FetchOutcome where
  | abortTimeout
  | networkFailure
  | httpResponse (status : ℕ) (body : Option PageSpeedResponse)
deriving DecidableEq, Repr

/-- `response.ok`: status in the 2xx range. -/
def statusOk (status : ℕ) : Bool :=
  200 ≤ status && status ≤ 299

/-- `makePageSpeedRequest` (lines 66–100) as a function of the fetch outcome:
    an abort or rejection is caught and yields `null`; a non-ok status throws
    (line 88) and is caught, yielding `null`; an ok status yields the parsed
    body, or `null` when `response.json()` throws on a malformed body. -/
def makePageSpeedRequest (outcome : FetchOutcome) : Option PageSpeedResponse :=
  match outcome with
  | FetchOutcome.abortTimeout => none
  | FetchOutcome.networkFailure => none
  | FetchOutcome.httpResponse status body =>
      if statusOk status then body else none

/-- End-to-end tool output for one invocation: dispatch, then the handler's
    formatting of the dispatch result. -/
def toolOutput (req : AnalysisRequest) (outcome : FetchOutcome) : String :=
  handlerText req (makePageSpeedRequest outcome)

/-!
## Concrete instances

Written as reduced-fraction structure literals so that the kernel can
evaluate comparisons on them (arithmetic-built rational literals do not
reduce under `decide`).
-/

/-- The rational one half, i.e. a `score` of `0.5`. -/
def rHalf : ℚ := ⟨1, 2, by decide, by decide⟩

/-- The rational `0.873`, the score of the spec's rounding example. -/
def r873 : ℚ := ⟨873, 1000, by decide, by decide⟩

/-- A request with default category, strategy and timeout. -/
def exReq : AnalysisRequest := { url := "https://example.com" }

/-- A response whose `lighthouseResult` is present but has no `audits`
    object at all. -/
def noAuditsData : PageSpeedResponse :=
  { lighthouseResult := some { categories := none, audits := none }, error := none }

/-- A response with a present but empty `audits` object. -/
def emptyAuditsData : PageSpeedResponse :=
  { lighthouseResult := some { categories := none, audits := some [] }, error := none }

/-- A response with `categories.performance.score = 0.873`. -/
def data873 : PageSpeedResponse :=
  { lighthouseResult := some
      { categories := some { performance := some { score := JSNum.num r873 } },
        audits := none },
    error := none }

/-- A response whose performance score field is present and equal to
    JSON `null`. -/
def nullScoreData : PageSpeedResponse :=
  { lighthouseResult := some
      { categories := some { performance := some { score := JSNum.null } },
        audits := none },
    error := none }

/-- An audits object containing only `speed-index`. -/
def speedIndexAudits : List (String × Audit) :=
  [("speed-index", { title := some "Speed Index", displayValue := some "2.1 s" })]

/-- A response whose audits object contains only `speed-index`. -/
def speedIndexData : PageSpeedResponse :=
  { lighthouseResult := some { categories := none, audits := some speedIndexAudits },
    error := none }

/-- An opportunity audit with score `0.5` and an absent `title`. -/
def leakAudit : Audit :=
  { score := JSNum.num rHalf, details := some { type := some "opportunity" } }

/-- A response whose audits object contains only `leakAudit`. -/
def leakData : PageSpeedResponse :=
  { lighthouseResult := some
      { categories := none, audits := some [("render-blocking-resources", leakAudit)] },
    error := none }

/-- An audits object with a qualifying opportunity (score `0.5`) and a
    non-qualifying one (score exactly `1`). -/
def oppAudits : List (String × Audit) :=
  [("unused-javascript",
    { title := some "Reduce JavaScript",
      score := JSNum.num rHalf,
      displayValue := some "Potential savings of 300 ms",
      details := some { type := some "opportunity" } }),
   ("render-blocking-resources",
    { title := some "Eliminate render-blocking resources",
      score := JSNum.num 1,
      displayValue := some "Potential savings of 0 ms",
      details := some { type := some "opportunity" } })]

/-- A response carrying `oppAudits`. -/
def oppData : PageSpeedResponse :=
  { lighthouseResult := some { categories := none, audits := some oppAudits },
    error := none }

/-- A response with a top-level error carrying a message. -/
def errMsgData : PageSpeedResponse :=
  { lighthouseResult := none,
    error := some { code := JSNum.num 500, message := some "Service unavailable" } }

/-- A response with a top-level error object and no message. -/
def noMsgData : PageSpeedResponse :=
  { lighthouseResult := none, error := some { code := JSNum.num 500, message := none } }

/-- A response with a top-level error whose message is the empty string. -/
def emptyMsgData : PageSpeedResponse :=
  { lighthouseResult := none, error := some { code := JSNum.num 500, message := some "" } }

/-!
## Helper lemmas
-/

/-- The structure literal `r873` is the rational `873 / 1000`. -/
theorem r873_eq_div : (873 : ℚ) / 1000 = r873 := by
  rw [← Rat.num_div_den r873]
  norm_num [r873]

/-- Rounding the example score `0.873` scaled to 100, per the spec's
    round-half-away-from-zero rule, gives 87. -/
theorem round_r873 : roundHalfAwayFromZero (r873 * 100) = 87 := by
  rw [← r873_eq_div]
  unfold roundHalfAwayFromZero
  norm_num

/-- JS `Math.round (0 * 100)` is `0`. -/
theorem mathRound_zero : mathRound ((0 : ℚ) * 100) = 0 := by
  unfold mathRound
  norm_num

/-!
## Claim theorems
-/

/-- Claim C1 (amended): when the audits mapping is absent, the metrics block
    is exactly "No performance metrics available" and the opportunities block
    is exactly "No opportunities available", never swapped or merged; a
    present-but-empty audits mapping instead yields an empty metrics block
    and the sentence "No improvement opportunities found". -/
theorem audits_sentinel_blocks (data : PageSpeedResponse) :
    (data.lighthouseResult.bind LighthouseResult.audits = none →
      formatPerformanceMetrics data = "No performance metrics available" ∧
      formatOpportunities data = "No opportunities available") ∧
    (data.lighthouseResult.bind LighthouseResult.audits = some [] →
      formatPerformanceMetrics data = "" ∧
      formatOpportunities data = "No improvement opportunities found") := by
  constructor
  · intro h
    constructor
    · unfold formatPerformanceMetrics
      rw [h]
    · unfold formatOpportunities
      rw [h]
  · intro h
    constructor
    · unfold formatPerformanceMetrics
      rw [h]
      rfl
    · unfold formatOpportunities
      rw [h]
      rfl

/-- Witness for C1: the absent-audits response yields the two sentinel
    sentences, and the empty-audits response yields the amended pair. -/
theorem audits_sentinel_blocks_witness :
    (formatPerformanceMetrics noAuditsData = "No performance metrics available" ∧
      formatOpportunities noAuditsData = "No opportunities available") ∧
    (formatPerformanceMetrics emptyAuditsData = "" ∧
      formatOpportunities emptyAuditsData = "No improvement opportunities found") :=
  ⟨(audits_sentinel_blocks noAuditsData).1 rfl,
   (audits_sentinel_blocks emptyAuditsData).2 rfl⟩

/-- Counterexample to C1 as stated: for the present-but-empty audits mapping
    the metrics block is the empty string, not the sentinel sentence, and the
    opportunities block is "No improvement opportunities found", not
    "No opportunities available". -/
theorem audits_empty_counterexample :
    emptyAuditsData.lighthouseResult.bind LighthouseResult.audits = some [] ∧
    formatPerformanceMetrics emptyAuditsData = "" ∧
    formatPerformanceMetrics emptyAuditsData ≠ "No performance metrics available" ∧
    formatOpportunities emptyAuditsData = "No improvement opportunities found" ∧
    formatOpportunities emptyAuditsData ≠ "No opportunities available" := by
  refine ⟨rfl, rfl, ?_, rfl, ?_⟩ <;> decide

/-- Claim C2, evaluated at the failing input: `leakAudit` is a selected
    opportunity whose `title` is absent, and the opportunities block for it
    is the leaked absent-value marker "undefined" — the template literal
    `${opp.title}` on line 145 is not guarded the way line 122's
    `audit.title || metric` is. -/
theorem opportunity_missing_title_leak :
    leakAudit.title = none ∧
    isOpportunity leakAudit = true ∧
    formatOpportunities leakData = "undefined" := by
  refine ⟨rfl, ?_, ?_⟩ <;> rfl

/-- Claim C3 (amended): a present error object with a non-empty message M
    yields exactly "Error: " ++ M as the whole output; an absent or empty
    message yields exactly "Error: Unknown error"; no other section is
    produced in either case. -/
theorem error_line_output (req : AnalysisRequest) (data : PageSpeedResponse)
    (e : ErrorInfo) (h : data.error = some e) :
    (∀ m : String, e.message = some m → m ≠ "" →
      handlerText req (some data) = "Error: " ++ m) ∧
    ((e.message = none ∨ e.message = some "") →
      handlerText req (some data) = "Error: Unknown error") := by
  have hsome : handlerText req (some data) = "Error: " ++ jsStrOr e.message "Unknown error" := by
    simp only [handlerText, h]
  constructor
  · intro m hm hne
    rw [hsome, hm]
    show "Error: " ++ (if m = "" then "Unknown error" else m) = "Error: " ++ m
    rw [if_neg hne]
  · intro hm
    rw [hsome]
    rcases hm with hm | hm <;> rw [hm] <;> rfl

/-- Witness for C3: a present message renders verbatim after "Error: ", and
    a missing message renders the default. -/
theorem error_line_output_witness :
    handlerText exReq (some errMsgData) = "Error: Service unavailable" ∧
    handlerText exReq (some noMsgData) = "Error: Unknown error" :=
  ⟨(error_line_output exReq errMsgData _ rfl).1 "Service unavailable" rfl (by decide),
   (error_line_output exReq noMsgData _ rfl).2 (Or.inl rfl)⟩

/-- Counterexample to C3 as stated: a present error whose message is the
    empty string M = "" renders "Error: Unknown error", not "Error: " ++ M —
    the `||` default on line 189 also fires on the falsy empty string. -/
theorem error_empty_message_counterexample :
    emptyMsgData.error = some { code := JSNum.num 500, message := some "" } ∧
    handlerText exReq (some emptyMsgData) = "Error: Unknown error" ∧
    handlerText exReq (some emptyMsgData) ≠ "Error: " ++ "" := by
  refine ⟨rfl, rfl, ?_⟩
  decide

/-- Claim C4: whenever the dispatch step yields no data — the abort deadline
    fired, the network call failed, the HTTP status was not 2xx, or the body
    was malformed — the whole tool output is exactly
    "Failed to retrieve Lighthouse data for <url>". -/
theorem dispatch_failure_output (req : AnalysisRequest) (outcome : FetchOutcome)
    (h : outcome = FetchOutcome.abortTimeout ∨ outcome = FetchOutcome.networkFailure ∨
      (∃ status body, outcome = FetchOutcome.httpResponse status body ∧
        statusOk status = false) ∨
      (∃ status, outcome = FetchOutcome.httpResponse status none)) :
    makePageSpeedRequest outcome = none ∧
    toolOutput req outcome = "Failed to retrieve Lighthouse data for " ++ req.url := by
  have hnone : makePageSpeedRequest outcome = none := by
    rcases h with h | h | ⟨s, b, h, hs⟩ | ⟨s, h⟩
    · rw [h]
      rfl
    · rw [h]
      rfl
    · rw [h]
      simp only [makePageSpeedRequest, hs]
      rfl
    · rw [h]
      simp only [makePageSpeedRequest, ite_self]
  refine ⟨hnone, ?_⟩
  unfold toolOutput
  rw [hnone]
  rfl

/-- Witness for C4: a 500 response with no parseable body collapses to the
    single failure line. -/
theorem dispatch_failure_output_witness :
    toolOutput exReq (FetchOutcome.httpResponse 500 none) =
      "Failed to retrieve Lighthouse data for https://example.com" :=
  (dispatch_failure_output exReq (FetchOutcome.httpResponse 500 none)
    (Or.inr (Or.inr (Or.inl ⟨500, none, rfl, rfl⟩)))).2

/-- Claim C5: for a present numeric score in [0, 1], the score line renders
    round-half-away-from-zero of the score scaled to 100, out of 100; an
    absent category or score renders the literal "N/A" in its place. -/
theorem score_line_rounding (data : PageSpeedResponse) (c : Category) :
    (∀ q : ℚ, getCategoryScore data c = JSNum.num q → 0 ≤ q → q ≤ 1 →
      scoreLine data c =
        "Score: " ++ toString (roundHalfAwayFromZero (q * 100)) ++ "/100") ∧
    (getCategoryScore data c = JSNum.undef → scoreLine data c = "Score: N/A/100") := by
  constructor
  · intro q hq h0 _h1
    have hpos : (0 : ℚ) ≤ q * 100 := mul_nonneg h0 (by norm_num)
    unfold scoreLine
    rw [hq]
    show "Score: " ++ toString (mathRound (q * 100)) ++ "/100" = _
    unfold mathRound roundHalfAwayFromZero
    rw [if_pos hpos]
  · intro hq
    unfold scoreLine
    rw [hq]
    rfl

/-- Witness for C5: the spec's example — score 0.873 renders "Score: 87/100". -/
theorem score_line_rounding_witness :
    scoreLine data873 Category.performance = "Score: 87/100" := by
  have h := (score_line_rounding data873 Category.performance).1 r873 rfl
    (by decide) (by decide)
  rw [round_r873] at h
  exact h

/-- Claim C6: with an audits mapping present, the metrics block walks exactly
    the six whitelisted identifiers in their fixed order, emits one line
    "<title-or-id>: <displayValue-or-N/A>" per identifier found in the
    mapping, and silently skips the identifiers that are absent. -/
theorem metrics_block_spec (data : PageSpeedResponse) (audits : List (String × Audit))
    (h : data.lighthouseResult.bind LighthouseResult.audits = some audits) :
    formatPerformanceMetrics data =
      String.intercalate "\n"
        ((["first-contentful-paint", "largest-contentful-paint", "total-blocking-time",
           "cumulative-layout-shift", "speed-index", "interactive"]).filterMap
          (fun metric => (lookupAudit audits metric).map
            (fun audit => jsStrOr audit.title metric ++ ": " ++
              jsStrOr audit.displayValue "N/A"))) := by
  unfold formatPerformanceMetrics
  rw [h]
  rfl

/-- Witness for C6: the spec's example — an audits mapping holding only
    speed-index yields exactly the one line "Speed Index: 2.1 s". -/
theorem metrics_block_spec_witness :
    formatPerformanceMetrics speedIndexData = "Speed Index: 2.1 s" :=
  (metrics_block_spec speedIndexData speedIndexAudits rfl).trans rfl

/-- Claim C7: the opportunities block selects exactly the audits whose
    details.type is "opportunity" and whose score is a present number
    strictly below 1 (a score of exactly 1 and a null/absent score are both
    excluded); a selected audit with a title renders as the title, suffixed
    with " (<displayValue>)" exactly when a non-empty display value exists;
    when audits exist but none qualify, the block is exactly
    "No improvement opportunities found". -/
theorem opportunities_spec (data : PageSpeedResponse) (audits : List (String × Audit))
    (h : data.lighthouseResult.bind LighthouseResult.audits = some audits) :
    (∀ a : Audit,
      a ∈ (audits.map Prod.snd).filter isOpportunity ↔
        (a ∈ audits.map Prod.snd ∧
          a.details.bind AuditDetails.type = some "opportunity" ∧
          ∃ q : ℚ, a.score = JSNum.num q ∧ q < 1)) ∧
    ((audits.map Prod.snd).filter isOpportunity = [] →
      formatOpportunities data = "No improvement opportunities found") ∧
    ((audits.map Prod.snd).filter isOpportunity ≠ [] →
      formatOpportunities data =
        String.intercalate "\n" (((audits.map Prod.snd).filter isOpportunity).map oppLine)) ∧
    (∀ a : Audit, ∀ t dv : String, a.title = some t → a.displayValue = some dv →
      dv ≠ "" → oppLine a = t ++ " (" ++ dv ++ ")") ∧
    (∀ a : Audit, ∀ t : String, a.title = some t → a.displayValue = none →
      oppLine a = t) := by
  refine ⟨?_, ?_, ?_, ?_, ?_⟩
  · intro a
    rw [List.mem_filter]
    apply and_congr_right
    intro _
    unfold isOpportunity
    cases hs : a.score <;> simp [hs, beq_iff_eq]
  · intro hf
    unfold formatOpportunities
    rw [h]
    show (if (audits.map Prod.snd).filter isOpportunity = []
          then "No improvement opportunities found"
          else String.intercalate "\n"
            (((audits.map Prod.snd).filter isOpportunity).map oppLine)) = _
    rw [if_pos hf]
  · intro hne
    unfold formatOpportunities
    rw [h]
    show (if (audits.map Prod.snd).filter isOpportunity = []
          then "No improvement opportunities found"
          else String.intercalate "\n"
            (((audits.map Prod.snd).filter isOpportunity).map oppLine)) = _
    rw [if_neg hne]
  · intro a t dv ht hdv hne
    unfold oppLine jsTemplate
    rw [ht, hdv]
    show t ++ (if dv = "" then "" else " (" ++ dv ++ ")") = t ++ " (" ++ dv ++ ")"
    rw [if_neg hne]
    simp [String.append_assoc]
  · intro a t ht hdv
    unfold oppLine jsTemplate
    rw [ht, hdv]
    show t ++ "" = t
    rw [String.append_empty]

/-- Witness for C7: the spec's example — the score-0.5 opportunity renders
    with its display-value suffix; the score-1 opportunity of the same
    audits mapping is excluded (the block holds only the one line). -/
theorem opportunities_spec_witness :
    formatOpportunities oppData = "Reduce JavaScript (Potential savings of 300 ms)" := by
  have h := (opportunities_spec oppData oppAudits rfl).2.2.1 (by decide)
  exact h.trans rfl

/-- Claim C8: for a non-error response, the report is exactly the nine
    components — header line, strategy line, score line, blank line,
    "--- Key Metrics ---", metrics block, blank line,
    "--- Opportunities for Improvement ---", opportunities block — joined by
    newlines in this fixed order. -/
theorem report_structure (req : AnalysisRequest) (data : PageSpeedResponse)
    (h : data.error = none) :
    handlerText req (some data) =
      String.intercalate "\n"
        [ "Lighthouse " ++ req.category.name ++ " report for: " ++ req.url,
          "Strategy: " ++ req.strategy.name,
          "Score: " ++ formattedScore (getCategoryScore data req.category) ++ "/100",
          "",
          "--- Key Metrics ---",
          formatPerformanceMetrics data,
          "",
          "--- Opportunities for Improvement ---",
          formatOpportunities data ] := by
  simp only [handlerText, h]
  rfl

/-- Witness for C8: the fully rendered report for a response with no
    categories and no audits, showing all nine components in order. -/
theorem report_structure_witness :
    handlerText exReq (some noAuditsData) =
      "Lighthouse performance report for: https://example.com\nStrategy: mobile\nScore: N/A/100\n\n--- Key Metrics ---\nNo performance metrics available\n\n--- Opportunities for Improvement ---\nNo opportunities available" :=
  (report_structure exReq noAuditsData rfl).trans rfl

/-- Claim C9: formatting is deterministic — the output depends only on the
    request and the dispatched response values. -/
theorem formatting_deterministic (req req' : AnalysisRequest)
    (d d' : Option PageSpeedResponse) (h1 : req = req') (h2 : d = d') :
    handlerText req d = handlerText req' d' := by
  rw [h1, h2]

/-- Witness for C9: formatting the same pair twice yields identical output. -/
theorem formatting_deterministic_witness :
    handlerText exReq (some oppData) = handlerText exReq (some oppData) :=
  formatting_deterministic exReq exReq (some oppData) (some oppData) rfl rfl

/-- Claim C10: a present-but-null score passes the `!== undefined` test, is
    coerced to 0 by the multiplication, and renders "Score: 0/100" rather
    than "Score: N/A/100". -/
theorem null_score_renders_zero (data : PageSpeedResponse) (c : Category)
    (h : getCategoryScore data c = JSNum.null) :
    scoreLine data c = "Score: 0/100" := by
  unfold scoreLine
  rw [h]
  show "Score: " ++ toString (mathRound ((0 : ℚ) * 100)) ++ "/100" = _
  rw [mathRound_zero]
  rfl

/-- Witness for C10: the response whose performance score is JSON null
    renders "Score: 0/100". -/
theorem null_score_renders_zero_witness :
    scoreLine nullScoreData Category.performance = "Score: 0/100" :=
  null_score_renders_zero nullScoreData Category.performance rfl

end Lighthouse
